import Mathlib

/-!
# Endpoint configuration of `internal/util/paramtable/global_param.go`

A shallow embedding of the gRPC endpoint configuration (`grpcConfig`,
`GrpcServerConfig`, `GrpcClientConfig`, `CheckPortAvailable`,
`GetAvailablePort`) together with the parts of `strconv` the file relies on.

Go `int` values are Lean `Int`s; the only place where the width of `int`
matters is `strconv.Atoi`, which reports a range error outside the 64-bit
range. Go `panic` is an explicit outcome, and the observable effects of a call
(logging, `net.Listen`, `BaseParamTable.Init`) are recorded in a trace.
-/

namespace paramtable

/-! ## strconv -/

namespace strconv

/-- Width of the Go `int` type (`strconv.IntSize`) on the 64-bit targets. -/
def IntSize : Nat := 64

/-- The decimal digit `'0' + d`. -/
def digitChar (d : Nat) : Char := Char.ofNat (48 + d)

/-- The digit loop of `formatBits` for base 10: the digits of `u` are pushed in
front of `acc`, least significant first. `fuel` bounds the number of rounds. -/
def formatBits : Nat → Nat → List Char → List Char
  | 0, u, acc => digitChar (u % 10) :: acc
  | fuel + 1, u, acc =>
    if u < 10 then digitChar u :: acc
    else formatBits fuel (u / 10) (digitChar (u % 10) :: acc)

/-- Decimal digits of an unsigned value. -/
def formatUint (u : Nat) : List Char := formatBits u u []

/-- Characters of `strconv.Itoa i` (`FormatInt(int64(i), 10)`): a minus sign for
negative values followed by the digits of the magnitude. -/
def itoaChars (i : Int) : List Char :=
  if i < 0 then '-' :: formatUint i.natAbs else formatUint i.natAbs

/-- Go `strconv.Itoa`. -/
def Itoa (i : Int) : String := String.mk (itoaChars i)

/-- Value of a decimal digit byte, `none` for any other character
(the `syntaxError` exit of `ParseUint`). -/
def digitVal (c : Char) : Option Nat :=
  if 48 ≤ c.toNat ∧ c.toNat ≤ 57 then some (c.toNat - 48) else none

/-- The accumulation loop of `ParseUint` in base 10, without the overflow exits
(they are applied on the final value by `ParseInt`). -/
def parseDigits : Nat → List Char → Option Nat
  | n, [] => some n
  | n, c :: cs =>
    match digitVal c with
    | none => none
    | some d => parseDigits (n * 10 + d) cs

/-- Go `strconv.ParseUint(s, 10, _)` on the characters of `s`, as far as the
syntax is concerned: the empty string and any non-digit are errors. -/
def ParseUint (s : List Char) : Option Nat :=
  match s with
  | [] => none
  | _ :: _ => parseDigits 0 s

/-- Go `strconv.ParseInt(s, 10, bitSize)`; `none` stands for a non-nil error
(`ErrSyntax` or `ErrRange`). An optional sign is followed by at least one
digit, and the magnitude must be below `2^(bitSize-1)` (at most that for a
negative value). -/
def ParseInt (s : List Char) (bitSize : Nat) : Option Int :=
  match s with
  | [] => none
  | c :: cs =>
    let neg := decide (c = '-')
    let body := if c = '+' ∨ c = '-' then cs else c :: cs
    match ParseUint body with
    | none => none
    | some un =>
      let cutoff := 2 ^ (bitSize - 1)
      if ¬ neg ∧ un ≥ cutoff then none
      else if neg ∧ un > cutoff then none
      else if neg then some (-(un : Int)) else some (un : Int)

/-- Go `strconv.Atoi`: `none` when the returned error is non-nil. The fast path
for short strings computes the same result as `ParseInt(s, 10, 0)`. -/
def Atoi (s : String) : Option Int := ParseInt s.data IntSize

/-- The values representable by the Go `int` type. -/
def InIntRange (n : Int) : Prop := -(2 ^ (IntSize - 1) : Int) ≤ n ∧ n < 2 ^ (IntSize - 1)

instance (n : Int) : Decidable (InIntRange n) := by
  unfold InIntRange
  infer_instance

end strconv

open strconv

/-! ## Collaborators outside the file -/

/-- A bound TCP listener as returned by `net.Listen`; `Port` is what
`listener.Addr().(*net.TCPAddr).Port` reports. -/
structure Listener where
  Port : Int
deriving DecidableEq, Repr

/-- Observable effects of the configuration code. -/
inductive Event where
  /-- `p.BaseParamTable.Init()` was run. -/
  | baseInit
  /-- `net.Listen("tcp", addr)` was called. -/
  | listen (addr : String)
  /-- `listener.Close()` was called. -/
  | close
  /-- `log.Warn(msg, ...)`. -/
  | warn (msg : String)
  /-- `log.Debug(msg, ...)`. -/
  | debug (msg : String)
deriving DecidableEq, Repr

/-- Everything the file consumes but does not define: the role constants of
`typeutil`, the local address (`ipv4.LocalIP`), the parameter table behind
`BaseParamTable` (raw lookup and `ParseInt`), and the TCP stack behind
`net.Listen` (`none` is a non-nil error). The environment is a snapshot: the
same address gets the same answer during one initialisation. -/
structure Env where
  ProxyRole : String
  DataNodeRole : String
  IndexNodeRole : String
  QueryNodeRole : String
  LocalIP : String
  Load : String → Option String
  ParseInt : String → Int
  Listen : String → Option Listener

/-- Modelled from the spec: `BaseParamTable.Load` is declared outside this
file; the spec gives its contract as `Load(key) -> (string, found)`. The Go
method returns the pair `(valueStr, err)`: the stored string and a nil error
when the key is found; when it is not, a non-nil error (`true`) together with
the zero value `""` of the string result. -/
def BaseParamTable.Load (env : Env) (key : String) : String × Bool :=
  match env.Load key with
  | some v => (v, false)
  | none => ("", true)

/-- Where a Go `panic` was raised. -/
inductive PanicSite where
  | GetAvailablePort
  | initListener
deriving DecidableEq, Repr

/-- Result of a call on a pointer receiver: it returns, or it panics; either
way the receiver holds the mutations made so far. -/
inductive Outcome (σ : Type) where
  | returned (s : σ)
  | panicked (site : PanicSite) (s : σ)
deriving DecidableEq, Repr

/-- The receiver after the call. -/
def Outcome.state {σ : Type} : Outcome σ → σ
  | .returned s => s
  | .panicked _ s => s

/-- Sequencing: a panic skips the rest. -/
def Outcome.bind {σ τ : Type} (o : Outcome σ) (lift : σ → τ) (k : σ → Outcome τ) :
    Outcome τ :=
  match o with
  | .returned s => k s
  | .panicked site s => .panicked site (lift s)

/-- Number of runs of `BaseParamTable.Init` recorded in a trace. -/
def initRuns : List Event → Nat
  | [] => 0
  | .baseInit :: t => initRuns t + 1
  | _ :: t => initRuns t

/-- Number of warnings recorded in a trace. -/
def warnings : List Event → Nat
  | [] => 0
  | .warn _ :: t => warnings t + 1
  | _ :: t => warnings t

/-! ## Constants -/

/-- `math.MaxInt32`. -/
def DefaultServerMaxSendSize : Int := 2147483647

/-- `math.MaxInt32`. -/
def DefaultServerMaxRecvSize : Int := 2147483647

/-- `100 * 1024 * 1024`. -/
def DefaultClientMaxSendSize : Int := 100 * 1024 * 1024

/-- `100 * 1024 * 1024`. -/
def DefaultClientMaxRecvSize : Int := 100 * 1024 * 1024

/-! ## Port probing -/

/-- `CheckPortAvailable` (lines 234-241): binds `":" + Itoa(port)`, closes the listener if there
is one, and reports whether the bind succeeded. The second component lists the
effects. -/
def CheckPortAvailable (env : Env) (port : Int) : Bool × List Event :=
  let addr := ":" ++ Itoa port
  match env.Listen addr with
  | some _ => (true, [Event.listen addr, Event.close])
  | none => (false, [Event.listen addr])

/-- `GetAvailablePort` (lines 244-252): binds `":0"`; `none` is the `panic(err)` exit, otherwise
the port of the listener, which is closed on return. -/
def GetAvailablePort (env : Env) : Option Int × List Event :=
  match env.Listen ":0" with
  | none => (none, [Event.listen ":0"])
  | some l => (some l.Port, [Event.listen ":0", Event.close])

/-! ## grpcConfig -/

/-- The `grpcConfig` struct (lines 43-51). `once` is the done flag of the
`sync.Once`; `trace` is a ghost field recording the effects performed through
the config. The embedded `BaseParamTable` is answered by the environment. -/
structure grpcConfig where
  once : Bool
  Domain : String
  IP : String
  Port : Int
  Listener : Option Listener
  trace : List Event
deriving DecidableEq, Repr

/-- `LoadFromEnv` (lines 64-66). -/
def grpcConfig.LoadFromEnv (env : Env) (p : grpcConfig) : grpcConfig :=
  { p with IP := env.LocalIP }

/-- `LoadFromArgs` (lines 69-71, empty body). -/
def grpcConfig.LoadFromArgs (p : grpcConfig) : grpcConfig := p

/-- The role test of `initPort` (line 76). -/
def dynamicPortRole (env : Env) (domain : String) : Prop :=
  domain = env.ProxyRole ∨ domain = env.DataNodeRole ∨
    domain = env.IndexNodeRole ∨ domain = env.QueryNodeRole

instance (env : Env) (domain : String) : Decidable (dynamicPortRole env domain) := by
  unfold dynamicPortRole
  infer_instance

/-- `initPort` (lines 73-82). -/
def grpcConfig.initPort (env : Env) (p : grpcConfig) : Outcome grpcConfig :=
  let p := { p with Port := env.ParseInt (p.Domain ++ ".port") }
  if dynamicPortRole env p.Domain then
    let probe := CheckPortAvailable env p.Port
    let p := { p with trace := p.trace ++ probe.2 }
    if ¬ probe.1 then
      match GetAvailablePort env with
      | (none, ev) => .panicked .GetAvailablePort { p with trace := p.trace ++ ev }
      | (some q, ev) =>
        .returned { p with
          Port := q
          trace := p.trace ++ ev ++ [Event.warn "get available port when init"] }
    else .returned p
  else .returned p

/-- `GetAddress` (lines 85-87). -/
def grpcConfig.GetAddress (p : grpcConfig) : String :=
  p.IP ++ ":" ++ Itoa p.Port

/-- `initListener` (lines 89-97). -/
def grpcConfig.initListener (env : Env) (p : grpcConfig) : Outcome grpcConfig :=
  if p.Domain = env.DataNodeRole then
    let addr := p.GetAddress
    let p := { p with trace := p.trace ++ [Event.listen addr] }
    match env.Listen addr with
    | none => .panicked .initListener p
    | some listener => .returned { p with Listener := some listener }
  else .returned p

/-- `grpcConfig.init` (lines 53-61). -/
def grpcConfig.init (env : Env) (domain : String) (p : grpcConfig) : Outcome grpcConfig :=
  let p := { p with trace := p.trace ++ [Event.baseInit] }
  let p := { p with Domain := domain }
  let p := p.LoadFromEnv env
  let p := p.LoadFromArgs
  (p.initPort env).bind id (fun p => p.initListener env)

/-! ## GrpcServerConfig -/

/-- The `GrpcServerConfig` struct (lines 99-104). -/
structure GrpcServerConfig extends grpcConfig where
  ServerMaxSendSize : Int
  ServerMaxRecvSize : Int
deriving DecidableEq, Repr

/-- `initServerMaxSendSize` (lines 120-141). When `Load` fails the default is
stored and control falls through to `Atoi` of the returned string. -/
def GrpcServerConfig.initServerMaxSendSize (env : Env) (p : GrpcServerConfig) :
    GrpcServerConfig :=
  let loaded := BaseParamTable.Load env (p.Domain ++ ".grpc.serverMaxSendSize")
  let valueStr := loaded.1
  let p := if loaded.2 then { p with ServerMaxSendSize := DefaultServerMaxSendSize } else p
  let p :=
    match Atoi valueStr with
    | none =>
      { p with
        trace := p.trace ++ [Event.warn "Failed to parse grpc.serverMaxSendSize, set to default"]
        ServerMaxSendSize := DefaultServerMaxSendSize }
    | some value => { p with ServerMaxSendSize := value }
  { p with trace := p.trace ++ [Event.debug "initServerMaxSendSize"] }

/-- `initServerMaxRecvSize` (lines 143-164). -/
def GrpcServerConfig.initServerMaxRecvSize (env : Env) (p : GrpcServerConfig) :
    GrpcServerConfig :=
  let loaded := BaseParamTable.Load env (p.Domain ++ ".grpc.serverMaxRecvSize")
  let valueStr := loaded.1
  let p := if loaded.2 then { p with ServerMaxRecvSize := DefaultServerMaxRecvSize } else p
  let p :=
    match Atoi valueStr with
    | none =>
      { p with
        trace := p.trace ++ [Event.warn "Failed to parse grpc.serverMaxRecvSize, set to default"]
        ServerMaxRecvSize := DefaultServerMaxRecvSize }
    | some value => { p with ServerMaxRecvSize := value }
  { p with trace := p.trace ++ [Event.debug "initServerMaxRecvSize"] }

/-- `GrpcServerConfig.init` (lines 113-118). -/
def GrpcServerConfig.init (env : Env) (domain : String) (p : GrpcServerConfig) :
    Outcome GrpcServerConfig :=
  (p.togrpcConfig.init env domain).bind (fun g => { p with togrpcConfig := g }) (fun g =>
    let p := { p with togrpcConfig := g }
    let p := p.initServerMaxSendSize env
    let p := p.initServerMaxRecvSize env
    .returned p)

/-- `GrpcServerConfig.InitOnce` (lines 107-111): `sync.Once.Do` runs the function only while the
done flag is unset and sets the flag when the function returns or panics. -/
def GrpcServerConfig.InitOnce (env : Env) (domain : String) (p : GrpcServerConfig) :
    Outcome GrpcServerConfig :=
  if p.once then .returned p
  else
    match p.init env domain with
    | .returned s => .returned { s with once := true }
    | .panicked site s => .panicked site { s with once := true }

/-- A sequence of `InitOnce` calls on one instance, one per domain argument; a
caller that recovers a panic goes on with the same instance. -/
def GrpcServerConfig.InitOnceCalls (env : Env) (domains : List String)
    (p : GrpcServerConfig) : GrpcServerConfig :=
  domains.foldl (fun s d => (s.InitOnce env d).state) p

/-! ## GrpcClientConfig -/

/-- The `GrpcClientConfig` struct (lines 166-171). -/
structure GrpcClientConfig extends grpcConfig where
  ClientMaxSendSize : Int
  ClientMaxRecvSize : Int
deriving DecidableEq, Repr

/-- `initClientMaxSendSize` (lines 187-208). -/
def GrpcClientConfig.initClientMaxSendSize (env : Env) (p : GrpcClientConfig) :
    GrpcClientConfig :=
  let loaded := BaseParamTable.Load env (p.Domain ++ ".grpc.clientMaxSendSize")
  let valueStr := loaded.1
  let p := if loaded.2 then { p with ClientMaxSendSize := DefaultClientMaxSendSize } else p
  let p :=
    match Atoi valueStr with
    | none =>
      { p with
        trace := p.trace ++ [Event.warn "Failed to parse grpc.clientMaxSendSize, set to default"]
        ClientMaxSendSize := DefaultClientMaxSendSize }
    | some value => { p with ClientMaxSendSize := value }
  { p with trace := p.trace ++ [Event.debug "initClientMaxSendSize"] }

/-- `initClientMaxRecvSize` (lines 210-231). -/
def GrpcClientConfig.initClientMaxRecvSize (env : Env) (p : GrpcClientConfig) :
    GrpcClientConfig :=
  let loaded := BaseParamTable.Load env (p.Domain ++ ".grpc.clientMaxRecvSize")
  let valueStr := loaded.1
  let p := if loaded.2 then { p with ClientMaxRecvSize := DefaultClientMaxRecvSize } else p
  let p :=
    match Atoi valueStr with
    | none =>
      { p with
        trace := p.trace ++ [Event.warn "Failed to parse grpc.clientMaxRecvSize, set to default"]
        ClientMaxRecvSize := DefaultClientMaxRecvSize }
    | some value => { p with ClientMaxRecvSize := value }
  { p with trace := p.trace ++ [Event.debug "initClientMaxRecvSize"] }

/-- `GrpcClientConfig.init` (lines 180-185). -/
def GrpcClientConfig.init (env : Env) (domain : String) (p : GrpcClientConfig) :
    Outcome GrpcClientConfig :=
  (p.togrpcConfig.init env domain).bind (fun g => { p with togrpcConfig := g }) (fun g =>
    let p := { p with togrpcConfig := g }
    let p := p.initClientMaxSendSize env
    let p := p.initClientMaxRecvSize env
    .returned p)

/-- `GrpcClientConfig.InitOnce` (lines 174-178). -/
def GrpcClientConfig.InitOnce (env : Env) (domain : String) (p : GrpcClientConfig) :
    Outcome GrpcClientConfig :=
  if p.once then .returned p
  else
    match p.init env domain with
    | .returned s => .returned { s with once := true }
    | .panicked site s => .panicked site { s with once := true }

/-- A sequence of `InitOnce` calls on one client instance. -/
def GrpcClientConfig.InitOnceCalls (env : Env) (domains : List String)
    (p : GrpcClientConfig) : GrpcClientConfig :=
  domains.foldl (fun s d => (s.InitOnce env d).state) p

/-! ## Zero values and sample environments -/

/-- The operation `ResolveInt(key, fallback)` in the words of the spec (§4.3):
a key that is not found gives `fallback`; a value that is found but does not
parse as an integer gives `fallback`; otherwise the parsed integer. The four
size-limit routines of the source are compared with it. -/
def ResolveInt (env : Env) (key : String) (fallback : Int) : Int :=
  match env.Load key with
  | none => fallback
  | some v =>
    match Atoi v with
    | none => fallback
    | some n => n

/-- The zero value of `grpcConfig`. -/
def grpcConfig.zero : grpcConfig :=
  { once := false, Domain := "", IP := "", Port := 0, Listener := none, trace := [] }

/-- The zero value of `GrpcServerConfig`. -/
def GrpcServerConfig.zero : GrpcServerConfig :=
  { grpcConfig.zero with ServerMaxSendSize := 0, ServerMaxRecvSize := 0 }

/-- The zero value of `GrpcClientConfig`. -/
def GrpcClientConfig.zero : GrpcClientConfig :=
  { grpcConfig.zero with ClientMaxSendSize := 0, ClientMaxRecvSize := 0 }

/-- A `grpcConfig` whose `Domain` has been set, as `init` does before `initPort`. -/
def grpcConfig.ofDomain (domain : String) : grpcConfig :=
  { grpcConfig.zero with Domain := domain, IP := "127.0.0.1" }

/-- The assumption on the TCP stack under which a port handed out for `":0"`
counts as bindable: once released it can be bound again. -/
def EphemeralBindable (env : Env) : Prop :=
  ∀ l, env.Listen ":0" = some l → (CheckPortAvailable env l.Port).1 = true

/-- The assumption on the TCP stack that a listener asked for a non-zero port
is bound to that port. -/
def BindsRequestedPort (env : Env) : Prop :=
  ∀ (host : String) (port : Int) (l : Listener),
    env.Listen (host ++ ":" ++ Itoa port) = some l → port ≠ 0 → l.Port = port

/-- A store without any key; port 19530 is configured and occupied, the
system hands out port 45000 for `":0"`. -/
def envOccupied : Env :=
  { ProxyRole := "proxy", DataNodeRole := "data-node", IndexNodeRole := "index-node",
    QueryNodeRole := "query-node", LocalIP := "127.0.0.1",
    Load := fun _ => none,
    ParseInt := fun _ => 19530,
    Listen := fun a => if a = ":0" ∨ a = ":45000" then some ⟨45000⟩ else none }

/-- Port 19530 is configured and occupied, and so is every other port (or the
process is at its descriptor limit): no bind succeeds. -/
def envNoBind : Env :=
  { envOccupied with Listen := fun _ => none }

/-- A store holding `"abc"` under every key. -/
def envAbc : Env :=
  { envOccupied with Load := fun _ => some "abc" }

/-- A store holding `"4096"` under every key. -/
def envParsed : Env :=
  { envOccupied with Load := fun _ => some "4096" }

/-- A store holding `"-1"` under the two send-size keys of role `rootcoord`. -/
def envNegative : Env :=
  { envOccupied with
    Load := fun k =>
      if k = "rootcoord.grpc.serverMaxSendSize" ∨ k = "rootcoord.grpc.clientMaxSendSize"
      then some "-1" else none }

/-- Port 21124 is configured and free. -/
def envFree : Env :=
  { envOccupied with
    ParseInt := fun _ => 21124
    Listen := fun a =>
      if a = ":21124" ∨ a = "127.0.0.1:21124" then some ⟨21124⟩ else none }

/-- Port 0 is configured; every bind of port 0 succeeds on a port chosen by
the system (45000 for the probe, 45001 for the listener). -/
def envPortZero : Env :=
  { envOccupied with
    ParseInt := fun _ => 0
    Listen := fun a =>
      if a = ":0" then some ⟨45000⟩
      else if a = "127.0.0.1:0" then some ⟨45001⟩ else none }

/-! ## Facts about the strconv model -/

namespace strconv

theorem digitVal_digitChar (d : Nat) (h : d < 10) : digitVal (digitChar d) = some d := by
  interval_cases d <;> rfl

theorem digitChar_ne_sign (d : Nat) (h : d < 10) :
    digitChar d ≠ '+' ∧ digitChar d ≠ '-' := by
  interval_cases d <;> decide

theorem parseDigits_formatBits (fuel : Nat) :
    ∀ (u : Nat) (acc : List Char), u ≤ fuel →
      parseDigits 0 (formatBits fuel u acc) = parseDigits u acc := by
  induction fuel with
  | zero =>
    intro u acc hu
    have hu0 : u = 0 := by omega
    subst hu0
    rfl
  | succ fuel ih =>
    intro u acc hu
    by_cases hlt : u < 10
    · simp [formatBits, hlt, parseDigits, digitVal_digitChar u hlt]
    · have hdiv : u / 10 ≤ fuel := by omega
      have hmod : u % 10 < 10 := Nat.mod_lt _ (by decide)
      have hstep : u / 10 * 10 + u % 10 = u := by omega
      simp [formatBits, hlt, ih (u / 10) _ hdiv, parseDigits, digitVal_digitChar _ hmod, hstep]

theorem formatBits_head (fuel : Nat) :
    ∀ (u : Nat) (acc : List Char),
      ∃ d cs, d < 10 ∧ formatBits fuel u acc = digitChar d :: cs := by
  induction fuel with
  | zero =>
    intro u acc
    exact ⟨u % 10, acc, Nat.mod_lt _ (by decide), rfl⟩
  | succ fuel ih =>
    intro u acc
    by_cases hlt : u < 10
    · exact ⟨u, acc, hlt, by simp [formatBits, hlt]⟩
    · obtain ⟨d, cs, hd, hcs⟩ := ih (u / 10) (digitChar (u % 10) :: acc)
      exact ⟨d, cs, hd, by simp [formatBits, hlt, hcs]⟩

theorem ParseUint_formatUint (u : Nat) : ParseUint (formatUint u) = some u := by
  obtain ⟨d, cs, _, hcs⟩ := formatBits_head u u []
  have hp := parseDigits_formatBits u u [] (le_refl u)
  unfold formatUint at *
  rw [hcs] at hp
  rw [hcs]
  simpa [ParseUint, parseDigits] using hp

/-- Parsing the rendering of `i` gives `i` back whenever `i` fits `bitSize` bits. -/
theorem ParseInt_itoaChars (i : Int) (bitSize : Nat)
    (hlo : -(2 ^ (bitSize - 1) : Int) ≤ i) (hhi : i < 2 ^ (bitSize - 1)) :
    ParseInt (itoaChars i) bitSize = some i := by
  obtain ⟨d, cs, hd, hcs⟩ := formatBits_head i.natAbs i.natAbs []
  have hu := ParseUint_formatUint i.natAbs
  have hsign := digitChar_ne_sign d hd
  by_cases hneg : i < 0
  · have habs : (i.natAbs : Int) = -i := by omega
    have hle : i.natAbs ≤ 2 ^ (bitSize - 1) := by
      have : (i.natAbs : Int) ≤ 2 ^ (bitSize - 1) := by omega
      exact_mod_cast this
    simp [itoaChars, hneg, ParseInt, hu, Nat.not_lt.mpr hle, habs]
  · have habs : (i.natAbs : Int) = i := by omega
    have hlt : i.natAbs < 2 ^ (bitSize - 1) := by
      have : (i.natAbs : Int) < 2 ^ (bitSize - 1) := by omega
      exact_mod_cast this
    unfold formatUint at hu
    rw [hcs] at hu
    simp [itoaChars, hneg, formatUint, hcs, ParseInt, hsign.1, hsign.2, hu,
      Nat.not_le.mpr hlt, habs]

theorem Atoi_Itoa (n : Int) (h : InIntRange n) : Atoi (Itoa n) = some n :=
  ParseInt_itoaChars n IntSize h.1 h.2

theorem Itoa_injective (i j : Int) (h : Itoa i = Itoa j) : i = j := by
  have hc : itoaChars i = itoaChars j := congrArg String.data h
  have hbound : ∀ k : Nat, k ≤ i.natAbs + j.natAbs →
      (k : Int) < 2 ^ (i.natAbs + j.natAbs + 1 - 1) := by
    intro k hk
    have h1 : k < 2 ^ k := Nat.lt_two_pow k
    have h2 : 2 ^ k ≤ 2 ^ (i.natAbs + j.natAbs + 1 - 1) :=
      Nat.pow_le_pow_right (by decide) (by omega)
    have h3 : k < 2 ^ (i.natAbs + j.natAbs + 1 - 1) := lt_of_lt_of_le h1 h2
    exact_mod_cast h3
  have hi := hbound i.natAbs (by omega)
  have hj := hbound j.natAbs (by omega)
  have pi := ParseInt_itoaChars i (i.natAbs + j.natAbs + 1) (by omega) (by omega)
  have pj := ParseInt_itoaChars j (i.natAbs + j.natAbs + 1) (by omega) (by omega)
  rw [hc, pj] at pi
  exact (Option.some.inj pi).symm

theorem formatBits_mem (fuel : Nat) :
    ∀ (u : Nat) (acc : List Char) (c : Char), c ∈ formatBits fuel u acc →
      c ∈ acc ∨ ∃ d, d < 10 ∧ c = digitChar d := by
  induction fuel with
  | zero =>
    intro u acc c hc
    simp only [formatBits, List.mem_cons] at hc
    rcases hc with hc | hc
    · exact Or.inr ⟨u % 10, Nat.mod_lt _ (by decide), hc⟩
    · exact Or.inl hc
  | succ fuel ih =>
    intro u acc c hc
    by_cases hlt : u < 10
    · simp only [formatBits, hlt, if_true, List.mem_cons] at hc
      rcases hc with hc | hc
      · exact Or.inr ⟨u, hlt, hc⟩
      · exact Or.inl hc
    · simp only [formatBits, hlt, if_false] at hc
      rcases ih _ _ c hc with hc | hc
      · rcases List.mem_cons.mp hc with hc | hc
        · exact Or.inr ⟨u % 10, Nat.mod_lt _ (by decide), hc⟩
        · exact Or.inl hc
      · exact Or.inr hc

theorem digitChar_ne_colon (d : Nat) (h : d < 10) : digitChar d ≠ ':' := by
  interval_cases d <;> decide

theorem itoaChars_no_colon (i : Int) : ':' ∉ itoaChars i := by
  have hfmt : ':' ∉ formatUint i.natAbs := by
    intro hc
    rcases formatBits_mem _ _ _ _ hc with hc | ⟨d, hd, hc⟩
    · simp at hc
    · exact digitChar_ne_colon d hd hc.symm
  unfold itoaChars
  split
  · intro hc
    rcases List.mem_cons.mp hc with hc | hc
    · exact absurd hc (by decide)
    · exact hfmt hc
  · exact hfmt

/-- Two lists that end in a colon-free part after a colon agree on that part. -/
theorem after_last_colon (a : List Char) :
    ∀ (a2 b b2 : List Char), ':' ∉ b → ':' ∉ b2 →
      a ++ ':' :: b = a2 ++ ':' :: b2 → b = b2 := by
  induction a with
  | nil =>
    intro a2 b b2 hb _ h
    cases a2 with
    | nil => simpa using h
    | cons x t =>
      simp only [List.nil_append, List.cons_append, List.cons.injEq] at h
      exact absurd (h.2 ▸ (by simp : ':' ∈ t ++ ':' :: b2)) hb
  | cons y r ih =>
    intro a2 b b2 hb hb2 h
    cases a2 with
    | nil =>
      simp only [List.nil_append, List.cons_append, List.cons.injEq] at h
      exact absurd (h.2 ▸ (by simp : ':' ∈ r ++ ':' :: b)) hb2
    | cons x t =>
      simp only [List.cons_append, List.cons.injEq] at h
      exact ih t b b2 hb hb2 h.2

/-- The port can be read back from an address `host:port`. -/
theorem address_port_inj (host host2 : String) (i j : Int)
    (h : host ++ ":" ++ Itoa i = host2 ++ ":" ++ Itoa j) : i = j := by
  have hd := congrArg String.data h
  simp only [String.data_append, Itoa, List.append_assoc] at hd
  simp only [List.singleton_append] at hd
  have hc := after_last_colon _ _ _ _ (itoaChars_no_colon i) (itoaChars_no_colon j) hd
  exact Itoa_injective i j (congrArg String.mk hc)

end strconv

/-! ## Trace bookkeeping -/

theorem warnings_append (a b : List Event) : warnings (a ++ b) = warnings a + warnings b := by
  induction a with
  | nil => simp [warnings]
  | cons e t ih =>
    cases e <;> simp [warnings, ih]
    omega

theorem initRuns_append (a b : List Event) : initRuns (a ++ b) = initRuns a + initRuns b := by
  induction a with
  | nil => simp [initRuns]
  | cons e t ih =>
    cases e <;> simp [initRuns, ih]
    omega

theorem Atoi_empty : Atoi "" = none := rfl

/-! ## Size limits -/

/-- C1: when the size-limit key is not found in the store, each of the four
size-limit routines leaves its field at its fallback constant: 2147483647 for
the two server fields, 104857600 for the two client fields. -/
theorem sizeLimit_missing_key_fallback (env : Env) (s : GrpcServerConfig)
    (c : GrpcClientConfig) :
    (env.Load (s.Domain ++ ".grpc.serverMaxSendSize") = none →
      (s.initServerMaxSendSize env).ServerMaxSendSize = 2147483647) ∧
    (env.Load (s.Domain ++ ".grpc.serverMaxRecvSize") = none →
      (s.initServerMaxRecvSize env).ServerMaxRecvSize = 2147483647) ∧
    (env.Load (c.Domain ++ ".grpc.clientMaxSendSize") = none →
      (c.initClientMaxSendSize env).ClientMaxSendSize = 104857600) ∧
    (env.Load (c.Domain ++ ".grpc.clientMaxRecvSize") = none →
      (c.initClientMaxRecvSize env).ClientMaxRecvSize = 104857600) := by
  refine ⟨?_, ?_, ?_, ?_⟩ <;> intro h
  · simp [GrpcServerConfig.initServerMaxSendSize, BaseParamTable.Load, h, Atoi_empty,
      DefaultServerMaxSendSize]
  · simp [GrpcServerConfig.initServerMaxRecvSize, BaseParamTable.Load, h, Atoi_empty,
      DefaultServerMaxRecvSize]
  · simp [GrpcClientConfig.initClientMaxSendSize, BaseParamTable.Load, h, Atoi_empty,
      DefaultClientMaxSendSize]
  · simp [GrpcClientConfig.initClientMaxRecvSize, BaseParamTable.Load, h, Atoi_empty,
      DefaultClientMaxRecvSize]

theorem sizeLimit_missing_key_fallback_witness :
    ((GrpcServerConfig.zero.initServerMaxSendSize envOccupied).ServerMaxSendSize = 2147483647) ∧
    ((GrpcServerConfig.zero.initServerMaxRecvSize envOccupied).ServerMaxRecvSize = 2147483647) ∧
    ((GrpcClientConfig.zero.initClientMaxSendSize envOccupied).ClientMaxSendSize = 104857600) ∧
    ((GrpcClientConfig.zero.initClientMaxRecvSize envOccupied).ClientMaxRecvSize = 104857600) :=
  have h := sizeLimit_missing_key_fallback envOccupied GrpcServerConfig.zero GrpcClientConfig.zero
  ⟨h.1 rfl, h.2.1 rfl, h.2.2.1 rfl, h.2.2.2 rfl⟩

/-- C2: when the size-limit key is found with a value that `strconv.Atoi`
rejects, each of the four size-limit routines returns normally (each is a total
function), sets its field to its fallback constant and emits exactly one
warning. -/
theorem sizeLimit_unparsable_fallback (env : Env) (s : GrpcServerConfig)
    (c : GrpcClientConfig) (v : String) (hv : Atoi v = none) :
    (env.Load (s.Domain ++ ".grpc.serverMaxSendSize") = some v →
      (s.initServerMaxSendSize env).ServerMaxSendSize = 2147483647 ∧
      warnings (s.initServerMaxSendSize env).trace = warnings s.trace + 1) ∧
    (env.Load (s.Domain ++ ".grpc.serverMaxRecvSize") = some v →
      (s.initServerMaxRecvSize env).ServerMaxRecvSize = 2147483647 ∧
      warnings (s.initServerMaxRecvSize env).trace = warnings s.trace + 1) ∧
    (env.Load (c.Domain ++ ".grpc.clientMaxSendSize") = some v →
      (c.initClientMaxSendSize env).ClientMaxSendSize = 104857600 ∧
      warnings (c.initClientMaxSendSize env).trace = warnings c.trace + 1) ∧
    (env.Load (c.Domain ++ ".grpc.clientMaxRecvSize") = some v →
      (c.initClientMaxRecvSize env).ClientMaxRecvSize = 104857600 ∧
      warnings (c.initClientMaxRecvSize env).trace = warnings c.trace + 1) := by
  refine ⟨?_, ?_, ?_, ?_⟩ <;> intro h
  · simp [GrpcServerConfig.initServerMaxSendSize, BaseParamTable.Load, h, hv,
      DefaultServerMaxSendSize, warnings_append, warnings]
  · simp [GrpcServerConfig.initServerMaxRecvSize, BaseParamTable.Load, h, hv,
      DefaultServerMaxRecvSize, warnings_append, warnings]
  · simp [GrpcClientConfig.initClientMaxSendSize, BaseParamTable.Load, h, hv,
      DefaultClientMaxSendSize, warnings_append, warnings]
  · simp [GrpcClientConfig.initClientMaxRecvSize, BaseParamTable.Load, h, hv,
      DefaultClientMaxRecvSize, warnings_append, warnings]

theorem sizeLimit_unparsable_fallback_witness :
    Atoi "abc" = none ∧
    (GrpcClientConfig.zero.initClientMaxRecvSize envAbc).ClientMaxRecvSize = 104857600 ∧
    warnings (GrpcClientConfig.zero.initClientMaxRecvSize envAbc).trace = 1 :=
  ⟨by decide,
    (sizeLimit_unparsable_fallback envAbc GrpcServerConfig.zero GrpcClientConfig.zero "abc"
      (by decide)).2.2.2 rfl⟩

/-- C3: when the store holds the base-10 rendering of an integer `n` of the
`int` range under a size-limit key, the routine for that key sets its field to
`n`; and the field a routine computes depends on the store only through the
routine's own key, so whatever is stored under other keys has no influence. -/
theorem sizeLimit_parsed_from_own_key (env : Env) (s : GrpcServerConfig)
    (c : GrpcClientConfig) (n : Int) (hn : InIntRange n) :
    ((env.Load (s.Domain ++ ".grpc.serverMaxSendSize") = some (Itoa n) →
        (s.initServerMaxSendSize env).ServerMaxSendSize = n) ∧
      (env.Load (s.Domain ++ ".grpc.serverMaxRecvSize") = some (Itoa n) →
        (s.initServerMaxRecvSize env).ServerMaxRecvSize = n) ∧
      (env.Load (c.Domain ++ ".grpc.clientMaxSendSize") = some (Itoa n) →
        (c.initClientMaxSendSize env).ClientMaxSendSize = n) ∧
      (env.Load (c.Domain ++ ".grpc.clientMaxRecvSize") = some (Itoa n) →
        (c.initClientMaxRecvSize env).ClientMaxRecvSize = n)) ∧
    (∀ other : Env,
      (other.Load (s.Domain ++ ".grpc.serverMaxSendSize") =
          env.Load (s.Domain ++ ".grpc.serverMaxSendSize") →
        (s.initServerMaxSendSize other).ServerMaxSendSize =
          (s.initServerMaxSendSize env).ServerMaxSendSize) ∧
      (other.Load (s.Domain ++ ".grpc.serverMaxRecvSize") =
          env.Load (s.Domain ++ ".grpc.serverMaxRecvSize") →
        (s.initServerMaxRecvSize other).ServerMaxRecvSize =
          (s.initServerMaxRecvSize env).ServerMaxRecvSize) ∧
      (other.Load (c.Domain ++ ".grpc.clientMaxSendSize") =
          env.Load (c.Domain ++ ".grpc.clientMaxSendSize") →
        (c.initClientMaxSendSize other).ClientMaxSendSize =
          (c.initClientMaxSendSize env).ClientMaxSendSize) ∧
      (other.Load (c.Domain ++ ".grpc.clientMaxRecvSize") =
          env.Load (c.Domain ++ ".grpc.clientMaxRecvSize") →
        (c.initClientMaxRecvSize other).ClientMaxRecvSize =
          (c.initClientMaxRecvSize env).ClientMaxRecvSize)) := by
  have hp := Atoi_Itoa n hn
  refine ⟨⟨?_, ?_, ?_, ?_⟩, fun other => ⟨?_, ?_, ?_, ?_⟩⟩ <;> intro h
  · simp [GrpcServerConfig.initServerMaxSendSize, BaseParamTable.Load, h, hp]
  · simp [GrpcServerConfig.initServerMaxRecvSize, BaseParamTable.Load, h, hp]
  · simp [GrpcClientConfig.initClientMaxSendSize, BaseParamTable.Load, h, hp]
  · simp [GrpcClientConfig.initClientMaxRecvSize, BaseParamTable.Load, h, hp]
  · simp [GrpcServerConfig.initServerMaxSendSize, BaseParamTable.Load, h]
  · simp [GrpcServerConfig.initServerMaxRecvSize, BaseParamTable.Load, h]
  · simp [GrpcClientConfig.initClientMaxSendSize, BaseParamTable.Load, h]
  · simp [GrpcClientConfig.initClientMaxRecvSize, BaseParamTable.Load, h]

theorem sizeLimit_parsed_from_own_key_witness :
    InIntRange 4096 ∧
    (GrpcServerConfig.zero.initServerMaxSendSize envParsed).ServerMaxSendSize = 4096 ∧
    (GrpcClientConfig.zero.initClientMaxRecvSize envParsed).ClientMaxRecvSize = 4096 :=
  have h := (sizeLimit_parsed_from_own_key envParsed GrpcServerConfig.zero
    GrpcClientConfig.zero 4096 (by decide)).1
  ⟨by decide, h.1 (by decide), h.2.2.2 (by decide)⟩

/-! ## Port resolution -/

/-- The reassigning path of `initPort`, spelled out. -/
theorem initPort_of_unavailable (env : Env) (p : grpcConfig) (q : Int)
    (hdyn : dynamicPortRole env p.Domain)
    (hocc : (CheckPortAvailable env (env.ParseInt (p.Domain ++ ".port"))).1 = false)
    (hq : (GetAvailablePort env).1 = some q) :
    p.initPort env = .returned
      { p with
        Port := q
        trace := p.trace ++ (CheckPortAvailable env (env.ParseInt (p.Domain ++ ".port"))).2 ++
          (GetAvailablePort env).2 ++ [Event.warn "get available port when init"] } := by
  cases hg : GetAvailablePort env with
  | mk r ev =>
    rw [hg] at hq
    simp only at hq
    subst hq
    simp [grpcConfig.initPort, hdyn, hocc, hg]

/-- C5: the port left by `initPort` is the configured value
`ParseInt(<role>.port)` unless the role is one of the four dynamic-port roles and
`CheckPortAvailable` of the configured value is false; in that case it is the
result of `GetAvailablePort` (and `initPort` panics where `GetAvailablePort`
does). A role outside the subset keeps the configured port whether or not it is
occupied, and its trace is untouched: no socket is probed and
`GetAvailablePort` is not called. -/
theorem initPort_resolution (env : Env) (p : grpcConfig) :
    (¬ dynamicPortRole env p.Domain →
      p.initPort env = .returned { p with Port := env.ParseInt (p.Domain ++ ".port") }) ∧
    (dynamicPortRole env p.Domain →
      (CheckPortAvailable env (env.ParseInt (p.Domain ++ ".port"))).1 = true →
      ∃ s, p.initPort env = .returned s ∧ s.Port = env.ParseInt (p.Domain ++ ".port")) ∧
    (dynamicPortRole env p.Domain →
      (CheckPortAvailable env (env.ParseInt (p.Domain ++ ".port"))).1 = false →
      (∀ q, (GetAvailablePort env).1 = some q →
        ∃ s, p.initPort env = .returned s ∧ s.Port = q) ∧
      ((GetAvailablePort env).1 = none →
        ∃ s, p.initPort env = .panicked .GetAvailablePort s)) := by
  refine ⟨?_, ?_, ?_⟩
  · intro hdyn
    simp [grpcConfig.initPort, hdyn]
  · intro hdyn hav
    simp [grpcConfig.initPort, hdyn, hav]
  · intro hdyn hav
    constructor
    · intro q hq
      exact ⟨_, initPort_of_unavailable env p q hdyn hav hq, rfl⟩
    · intro hq
      cases hg : GetAvailablePort env with
      | mk r ev =>
        rw [hg] at hq
        simp only at hq
        subst hq
        simp [grpcConfig.initPort, hdyn, hav, hg]

theorem initPort_resolution_witness :
    (grpcConfig.ofDomain "rootcoord").initPort envOccupied =
        .returned { grpcConfig.ofDomain "rootcoord" with Port := 19530 } ∧
    (∃ s, (grpcConfig.ofDomain "proxy").initPort envFree = .returned s ∧ s.Port = 21124) ∧
    (∃ s, (grpcConfig.ofDomain "index-node").initPort envOccupied = .returned s ∧
      s.Port = 45000) ∧
    (∃ s, (grpcConfig.ofDomain "index-node").initPort envNoBind =
      .panicked .GetAvailablePort s) :=
  ⟨(initPort_resolution envOccupied (grpcConfig.ofDomain "rootcoord")).1 (by decide),
    (initPort_resolution envFree (grpcConfig.ofDomain "proxy")).2.1 (by decide) (by decide),
    ((initPort_resolution envOccupied (grpcConfig.ofDomain "index-node")).2.2
      (by decide) (by decide)).1 45000 (by decide),
    ((initPort_resolution envNoBind (grpcConfig.ofDomain "index-node")).2.2
      (by decide) (by decide)).2 (by decide)⟩

/-- C4, as stated, fails: for the dynamic-port role `proxy` with the configured
port 19530 occupied, in an environment where no socket can be bound,
`GetAvailablePort` panics inside `initPort`; the port field still holds the
configured port 19530, which is not bindable. -/
theorem initPort_occupied_counterexample :
    dynamicPortRole envNoBind "proxy" ∧
    (CheckPortAvailable envNoBind (envNoBind.ParseInt ("proxy" ++ ".port"))).1 = false ∧
    EphemeralBindable envNoBind ∧
    (grpcConfig.ofDomain "proxy").initPort envNoBind =
      .panicked .GetAvailablePort
        { grpcConfig.ofDomain "proxy" with
          Port := 19530, trace := [Event.listen ":19530", Event.listen ":0"] } ∧
    ¬ (((grpcConfig.ofDomain "proxy").initPort envNoBind).state.Port ≠
          envNoBind.ParseInt ("proxy" ++ ".port") ∧
        (CheckPortAvailable envNoBind
          ((grpcConfig.ofDomain "proxy").initPort envNoBind).state.Port).1 = true) := by
  refine ⟨by decide, by decide, ?_, by decide, by decide⟩
  intro l h
  simp [envNoBind] at h

/-- C4, amended: for a dynamic-port role whose configured port is occupied,
when `GetAvailablePort` succeeds with port `q`, `initPort` returns with the port
`q`, which differs from the configured port and for which `CheckPortAvailable`
holds, given that a port handed out for `":0"` can be bound again
(`EphemeralBindable`); `initPort` itself does not probe `q`. -/
theorem initPort_reassigns_occupied_port (env : Env) (p : grpcConfig) (q : Int)
    (hdyn : dynamicPortRole env p.Domain)
    (hocc : (CheckPortAvailable env (env.ParseInt (p.Domain ++ ".port"))).1 = false)
    (hq : (GetAvailablePort env).1 = some q)
    (hOS : EphemeralBindable env) :
    ∃ s, p.initPort env = .returned s ∧ s.Port = q ∧
      s.Port ≠ env.ParseInt (p.Domain ++ ".port") ∧
      (CheckPortAvailable env s.Port).1 = true := by
  have havail : (CheckPortAvailable env q).1 = true := by
    unfold GetAvailablePort at hq
    cases hl : env.Listen ":0" with
    | none => simp [hl] at hq
    | some l =>
      simp only [hl, Option.some.injEq] at hq
      exact hq ▸ hOS l hl
  have hne : q ≠ env.ParseInt (p.Domain ++ ".port") := by
    intro heq
    rw [heq, hocc] at havail
    exact Bool.noConfusion havail
  exact ⟨_, initPort_of_unavailable env p q hdyn hocc hq, rfl, hne, havail⟩

theorem envOccupied_ephemeralBindable : EphemeralBindable envOccupied := by
  intro l h
  have hl : l = ⟨45000⟩ := by
    simpa [envOccupied] using h.symm
  subst hl
  decide

theorem initPort_reassigns_occupied_port_witness :
    ∃ s, (grpcConfig.ofDomain "query-node").initPort envOccupied = .returned s ∧
      s.Port = 45000 ∧ s.Port ≠ 19530 ∧ (CheckPortAvailable envOccupied s.Port).1 = true :=
  initPort_reassigns_occupied_port envOccupied (grpcConfig.ofDomain "query-node") 45000
    (by decide) (by decide) (by decide) envOccupied_ephemeralBindable

/-- C10: `GetAddress` is the IP, a colon and the base-10 rendering of the current
`Port` field. After `initPort` has replaced the port of a dynamic-port role by
the port `q` of `GetAvailablePort`, the address carries `q`, and it is not the
address of the configured port when `q` differs from it. -/
theorem GetAddress_reports_current_port (env : Env) (p : grpcConfig) :
    p.GetAddress = p.IP ++ ":" ++ Itoa p.Port ∧
    (∀ q, dynamicPortRole env p.Domain →
      (CheckPortAvailable env (env.ParseInt (p.Domain ++ ".port"))).1 = false →
      (GetAvailablePort env).1 = some q →
      ∃ s, p.initPort env = .returned s ∧
        s.GetAddress = p.IP ++ ":" ++ Itoa q ∧
        (q ≠ env.ParseInt (p.Domain ++ ".port") →
          s.GetAddress ≠ p.IP ++ ":" ++ Itoa (env.ParseInt (p.Domain ++ ".port")))) := by
  refine ⟨rfl, ?_⟩
  intro q hdyn hocc hq
  refine ⟨_, initPort_of_unavailable env p q hdyn hocc hq, rfl, ?_⟩
  intro hne heq
  exact hne (address_port_inj _ _ _ _ heq)

theorem GetAddress_reports_current_port_witness :
    (grpcConfig.ofDomain "query-node").GetAddress = "127.0.0.1:0" ∧
    ∃ s, (grpcConfig.ofDomain "query-node").initPort envOccupied = .returned s ∧
      s.GetAddress = "127.0.0.1:45000" ∧
      (45000 ≠ (19530 : Int) → s.GetAddress ≠ "127.0.0.1:19530") :=
  have h := GetAddress_reports_current_port envOccupied (grpcConfig.ofDomain "query-node")
  ⟨h.1, h.2 45000 (by decide) (by decide) (by decide)⟩

/-! ## Frame lemmas for the initialisation sequence -/

theorem CheckPortAvailable_initRuns (env : Env) (port : Int) :
    initRuns (CheckPortAvailable env port).2 = 0 := by
  simp only [CheckPortAvailable]
  split <;> simp [initRuns]

theorem GetAvailablePort_initRuns (env : Env) :
    initRuns (GetAvailablePort env).2 = 0 := by
  unfold GetAvailablePort
  split <;> simp [initRuns]

theorem GetAvailablePort_none (env : Env) :
    (GetAvailablePort env).1 = none ↔ env.Listen ":0" = none := by
  unfold GetAvailablePort
  split <;> simp [*]

/-- The panicking path of `initPort`, spelled out. -/
theorem initPort_of_exhausted (env : Env) (p : grpcConfig)
    (hdyn : dynamicPortRole env p.Domain)
    (hocc : (CheckPortAvailable env (env.ParseInt (p.Domain ++ ".port"))).1 = false)
    (hq : (GetAvailablePort env).1 = none) :
    p.initPort env = .panicked .GetAvailablePort
      { p with
        Port := env.ParseInt (p.Domain ++ ".port")
        trace := p.trace ++ (CheckPortAvailable env (env.ParseInt (p.Domain ++ ".port"))).2 ++
          (GetAvailablePort env).2 } := by
  cases hg : GetAvailablePort env with
  | mk r ev =>
    rw [hg] at hq
    simp only at hq
    subst hq
    simp [grpcConfig.initPort, hdyn, hocc, hg]

/-- The keeping path of `initPort` for a dynamic-port role, spelled out. -/
theorem initPort_of_available (env : Env) (p : grpcConfig)
    (hdyn : dynamicPortRole env p.Domain)
    (hav : (CheckPortAvailable env (env.ParseInt (p.Domain ++ ".port"))).1 = true) :
    p.initPort env = .returned
      { p with
        Port := env.ParseInt (p.Domain ++ ".port")
        trace := p.trace ++
          (CheckPortAvailable env (env.ParseInt (p.Domain ++ ".port"))).2 } := by
  simp [grpcConfig.initPort, hdyn, hav]

/-- The path of `initPort` for the other roles, spelled out. -/
theorem initPort_of_static (env : Env) (p : grpcConfig)
    (hdyn : ¬ dynamicPortRole env p.Domain) :
    p.initPort env = .returned { p with Port := env.ParseInt (p.Domain ++ ".port") } := by
  simp [grpcConfig.initPort, hdyn]

/-- What `initPort` can do: return with the configured port, return with the
port of `GetAvailablePort`, or panic in `GetAvailablePort`. In all cases only
`Port` and the trace change, and no initialisation run is recorded. -/
theorem initPort_cases (env : Env) (p : grpcConfig) :
    ∃ s,
      ((p.initPort env = .returned s ∧
          (s.Port = env.ParseInt (p.Domain ++ ".port") ∨
            (GetAvailablePort env).1 = some s.Port)) ∨
        (p.initPort env = .panicked .GetAvailablePort s ∧ dynamicPortRole env p.Domain ∧
          (CheckPortAvailable env (env.ParseInt (p.Domain ++ ".port"))).1 = false ∧
          env.Listen ":0" = none)) ∧
      s.once = p.once ∧ s.Domain = p.Domain ∧ s.IP = p.IP ∧ s.Listener = p.Listener ∧
      initRuns s.trace = initRuns p.trace := by
  by_cases hdyn : dynamicPortRole env p.Domain
  · cases hav : (CheckPortAvailable env (env.ParseInt (p.Domain ++ ".port"))).1 with
    | true =>
      refine ⟨_, Or.inl ⟨initPort_of_available env p hdyn hav, Or.inl rfl⟩,
        rfl, rfl, rfl, rfl, ?_⟩
      simp [initRuns_append, CheckPortAvailable_initRuns]
    | false =>
      cases hq : (GetAvailablePort env).1 with
      | none =>
        refine ⟨_, Or.inr ⟨initPort_of_exhausted env p hdyn hav hq, hdyn, rfl,
            (GetAvailablePort_none env).mp hq⟩, rfl, rfl, rfl, rfl, ?_⟩
        simp [initRuns_append, CheckPortAvailable_initRuns, GetAvailablePort_initRuns]
      | some q =>
        refine ⟨_, Or.inl ⟨initPort_of_unavailable env p q hdyn hav hq, Or.inr rfl⟩,
          rfl, rfl, rfl, rfl, ?_⟩
        simp [initRuns_append, CheckPortAvailable_initRuns, GetAvailablePort_initRuns, initRuns]
  · exact ⟨_, Or.inl ⟨initPort_of_static env p hdyn, Or.inl rfl⟩, rfl, rfl, rfl, rfl, rfl⟩

/-- What `initListener` can do. -/
theorem initListener_cases (env : Env) (p : grpcConfig) :
    (p.Domain ≠ env.DataNodeRole ∧ p.initListener env = .returned p) ∨
    (p.Domain = env.DataNodeRole ∧ env.Listen p.GetAddress = none ∧
      p.initListener env =
        .panicked .initListener { p with trace := p.trace ++ [Event.listen p.GetAddress] }) ∨
    (p.Domain = env.DataNodeRole ∧ ∃ l, env.Listen p.GetAddress = some l ∧
      p.initListener env =
        .returned { p with
          trace := p.trace ++ [Event.listen p.GetAddress], Listener := some l }) := by
  by_cases hd : p.Domain = env.DataNodeRole
  · cases hl : env.Listen p.GetAddress with
    | none =>
      exact Or.inr (Or.inl ⟨hd, rfl, by simp [grpcConfig.initListener, hd, hl]⟩)
    | some l =>
      exact Or.inr (Or.inr ⟨hd, l, rfl, by simp [grpcConfig.initListener, hd, hl]⟩)
  · exact Or.inl ⟨hd, by simp [grpcConfig.initListener, hd]⟩

/-- What `grpcConfig.init` can do: return, panic in the listener bind of the
data-node role, or panic in `GetAvailablePort`; with the fields it leaves. -/
theorem grpcConfig_init_cases (env : Env) (role : String) (p : grpcConfig) :
    ∃ s,
      ((p.init env role = .returned s ∧
          ((role ≠ env.DataNodeRole ∧ s.Listener = p.Listener) ∨
            (role = env.DataNodeRole ∧ ∃ l, env.Listen s.GetAddress = some l ∧
              s.Listener = some l))) ∨
        (p.init env role = .panicked .initListener s ∧ role = env.DataNodeRole ∧
          env.Listen s.GetAddress = none ∧ s.Listener = p.Listener) ∨
        (p.init env role = .panicked .GetAvailablePort s ∧ dynamicPortRole env role ∧
          (CheckPortAvailable env (env.ParseInt (role ++ ".port"))).1 = false ∧
          env.Listen ":0" = none ∧ s.Listener = p.Listener)) ∧
      s.once = p.once ∧ s.Domain = role ∧ s.IP = env.LocalIP ∧
      (s.Port = env.ParseInt (role ++ ".port") ∨ (GetAvailablePort env).1 = some s.Port) ∧
      initRuns s.trace = initRuns p.trace + 1 := by
  have hinit : p.init env role =
      (grpcConfig.initPort env
        { p with trace := p.trace ++ [Event.baseInit], Domain := role, IP := env.LocalIP }).bind
        id (fun p => p.initListener env) := rfl
  obtain ⟨s1, hcase, honce, hdom, hip, hlis, hruns⟩ := initPort_cases env
    { p with trace := p.trace ++ [Event.baseInit], Domain := role, IP := env.LocalIP }
  simp only at honce hdom hip hlis hcase
  have hruns1 : initRuns s1.trace = initRuns p.trace + 1 := by
    rw [hruns]
    simp [initRuns_append, initRuns]
  rcases hcase with ⟨hret, hport⟩ | ⟨hpan, hdyn, hocc, hzero⟩
  · rw [hret] at hinit
    simp only [Outcome.bind] at hinit
    rcases initListener_cases env s1 with
      ⟨hne, hl⟩ | ⟨heq, hnone, hl⟩ | ⟨heq, l, hsome, hl⟩
    · rw [hl] at hinit
      rw [hdom] at hne
      exact ⟨s1, Or.inl ⟨hinit, Or.inl ⟨hne, hlis⟩⟩, honce, hdom, hip, hport, hruns1⟩
    · rw [hl] at hinit
      rw [hdom] at heq
      refine ⟨_, Or.inr (Or.inl ⟨hinit, heq, hnone, hlis⟩), honce, hdom, hip, hport, ?_⟩
      simp [initRuns_append, initRuns, hruns1]
    · rw [hl] at hinit
      rw [hdom] at heq
      refine ⟨_, Or.inl ⟨hinit, Or.inr ⟨heq, l, hsome, rfl⟩⟩,
        honce, hdom, hip, hport, ?_⟩
      simp [initRuns_append, initRuns, hruns1]
  · rw [hpan] at hinit
    simp only [Outcome.bind, id] at hinit
    have hport : s1.Port = env.ParseInt (role ++ ".port") := by
      have h := initPort_of_exhausted env
        { p with trace := p.trace ++ [Event.baseInit], Domain := role, IP := env.LocalIP }
        hdyn hocc ((GetAvailablePort_none env).mpr hzero)
      rw [hpan] at h
      injection h with _ h2
      rw [h2]
    exact ⟨s1, Or.inr (Or.inr ⟨hinit, hdyn, hocc, hzero, hlis⟩), honce, hdom, hip,
      Or.inl hport, hruns1⟩

/-! ## The size-limit routines against `ResolveInt` -/

/-- `initServerMaxSendSize` computes `ResolveInt` of its key and leaves the rest alone. -/
theorem initServerMaxSendSize_spec (env : Env) (p : GrpcServerConfig) :
    (p.initServerMaxSendSize env).ServerMaxSendSize =
        ResolveInt env (p.Domain ++ ".grpc.serverMaxSendSize") 2147483647 ∧
      (p.initServerMaxSendSize env).ServerMaxRecvSize = p.ServerMaxRecvSize ∧
      (p.initServerMaxSendSize env).once = p.once ∧
      (p.initServerMaxSendSize env).Domain = p.Domain ∧
      (p.initServerMaxSendSize env).IP = p.IP ∧
      (p.initServerMaxSendSize env).Port = p.Port ∧
      (p.initServerMaxSendSize env).Listener = p.Listener ∧
      initRuns (p.initServerMaxSendSize env).trace = initRuns p.trace := by
  cases hL : env.Load (p.Domain ++ ".grpc.serverMaxSendSize") with
  | none =>
    simp [GrpcServerConfig.initServerMaxSendSize, BaseParamTable.Load, ResolveInt, hL, Atoi_empty,
      DefaultServerMaxSendSize, initRuns_append, initRuns]
  | some v =>
    cases hA : Atoi v with
    | none =>
      simp [GrpcServerConfig.initServerMaxSendSize, BaseParamTable.Load, ResolveInt, hL, hA,
        DefaultServerMaxSendSize, initRuns_append, initRuns]
    | some n =>
      simp [GrpcServerConfig.initServerMaxSendSize, BaseParamTable.Load, ResolveInt, hL, hA,
        initRuns_append, initRuns]

/-- `initServerMaxRecvSize` computes `ResolveInt` of its key and leaves the rest alone. -/
theorem initServerMaxRecvSize_spec (env : Env) (p : GrpcServerConfig) :
    (p.initServerMaxRecvSize env).ServerMaxRecvSize =
        ResolveInt env (p.Domain ++ ".grpc.serverMaxRecvSize") 2147483647 ∧
      (p.initServerMaxRecvSize env).ServerMaxSendSize = p.ServerMaxSendSize ∧
      (p.initServerMaxRecvSize env).once = p.once ∧
      (p.initServerMaxRecvSize env).Domain = p.Domain ∧
      (p.initServerMaxRecvSize env).IP = p.IP ∧
      (p.initServerMaxRecvSize env).Port = p.Port ∧
      (p.initServerMaxRecvSize env).Listener = p.Listener ∧
      initRuns (p.initServerMaxRecvSize env).trace = initRuns p.trace := by
  cases hL : env.Load (p.Domain ++ ".grpc.serverMaxRecvSize") with
  | none =>
    simp [GrpcServerConfig.initServerMaxRecvSize, BaseParamTable.Load, ResolveInt, hL, Atoi_empty,
      DefaultServerMaxRecvSize, initRuns_append, initRuns]
  | some v =>
    cases hA : Atoi v with
    | none =>
      simp [GrpcServerConfig.initServerMaxRecvSize, BaseParamTable.Load, ResolveInt, hL, hA,
        DefaultServerMaxRecvSize, initRuns_append, initRuns]
    | some n =>
      simp [GrpcServerConfig.initServerMaxRecvSize, BaseParamTable.Load, ResolveInt, hL, hA,
        initRuns_append, initRuns]

/-- `initClientMaxSendSize` computes `ResolveInt` of its key and leaves the rest alone. -/
theorem initClientMaxSendSize_spec (env : Env) (p : GrpcClientConfig) :
    (p.initClientMaxSendSize env).ClientMaxSendSize =
        ResolveInt env (p.Domain ++ ".grpc.clientMaxSendSize") 104857600 ∧
      (p.initClientMaxSendSize env).ClientMaxRecvSize = p.ClientMaxRecvSize ∧
      (p.initClientMaxSendSize env).once = p.once ∧
      (p.initClientMaxSendSize env).Domain = p.Domain ∧
      (p.initClientMaxSendSize env).IP = p.IP ∧
      (p.initClientMaxSendSize env).Port = p.Port ∧
      (p.initClientMaxSendSize env).Listener = p.Listener ∧
      initRuns (p.initClientMaxSendSize env).trace = initRuns p.trace := by
  cases hL : env.Load (p.Domain ++ ".grpc.clientMaxSendSize") with
  | none =>
    simp [GrpcClientConfig.initClientMaxSendSize, BaseParamTable.Load, ResolveInt, hL, Atoi_empty,
      DefaultClientMaxSendSize, initRuns_append, initRuns]
  | some v =>
    cases hA : Atoi v with
    | none =>
      simp [GrpcClientConfig.initClientMaxSendSize, BaseParamTable.Load, ResolveInt, hL, hA,
        DefaultClientMaxSendSize, initRuns_append, initRuns]
    | some n =>
      simp [GrpcClientConfig.initClientMaxSendSize, BaseParamTable.Load, ResolveInt, hL, hA,
        initRuns_append, initRuns]

/-- `initClientMaxRecvSize` computes `ResolveInt` of its key and leaves the rest alone. -/
theorem initClientMaxRecvSize_spec (env : Env) (p : GrpcClientConfig) :
    (p.initClientMaxRecvSize env).ClientMaxRecvSize =
        ResolveInt env (p.Domain ++ ".grpc.clientMaxRecvSize") 104857600 ∧
      (p.initClientMaxRecvSize env).ClientMaxSendSize = p.ClientMaxSendSize ∧
      (p.initClientMaxRecvSize env).once = p.once ∧
      (p.initClientMaxRecvSize env).Domain = p.Domain ∧
      (p.initClientMaxRecvSize env).IP = p.IP ∧
      (p.initClientMaxRecvSize env).Port = p.Port ∧
      (p.initClientMaxRecvSize env).Listener = p.Listener ∧
      initRuns (p.initClientMaxRecvSize env).trace = initRuns p.trace := by
  cases hL : env.Load (p.Domain ++ ".grpc.clientMaxRecvSize") with
  | none =>
    simp [GrpcClientConfig.initClientMaxRecvSize, BaseParamTable.Load, ResolveInt, hL, Atoi_empty,
      DefaultClientMaxRecvSize, initRuns_append, initRuns]
  | some v =>
    cases hA : Atoi v with
    | none =>
      simp [GrpcClientConfig.initClientMaxRecvSize, BaseParamTable.Load, ResolveInt, hL, hA,
        DefaultClientMaxRecvSize, initRuns_append, initRuns]
    | some n =>
      simp [GrpcClientConfig.initClientMaxRecvSize, BaseParamTable.Load, ResolveInt, hL, hA,
        initRuns_append, initRuns]

/-! ## The composed initialisation -/

/-- What `GrpcServerConfig.init` can do, with the fields it leaves. -/
theorem GrpcServerConfig_init_cases (env : Env) (role : String) (p : GrpcServerConfig) :
    ∃ s,
      ((p.init env role = .returned s ∧
          s.ServerMaxSendSize =
            ResolveInt env (role ++ ".grpc.serverMaxSendSize") 2147483647 ∧
          s.ServerMaxRecvSize =
            ResolveInt env (role ++ ".grpc.serverMaxRecvSize") 2147483647) ∨
        (p.init env role = .panicked .initListener s ∧ role = env.DataNodeRole ∧
          env.Listen s.GetAddress = none) ∨
        (p.init env role = .panicked .GetAvailablePort s ∧ dynamicPortRole env role ∧
          (CheckPortAvailable env (env.ParseInt (role ++ ".port"))).1 = false ∧
          env.Listen ":0" = none)) ∧
      s.once = p.once ∧ s.Domain = role ∧ s.IP = env.LocalIP ∧
      (s.Port = env.ParseInt (role ++ ".port") ∨ (GetAvailablePort env).1 = some s.Port) ∧
      initRuns s.trace = initRuns p.trace + 1 := by
  have hinit : p.init env role =
      (p.togrpcConfig.init env role).bind (fun g => { p with togrpcConfig := g })
        (fun g => .returned
          (({ p with togrpcConfig := g } : GrpcServerConfig).initServerMaxSendSize env
            |>.initServerMaxRecvSize env)) := rfl
  obtain ⟨g, hcase, honce, hdom, hip, hport, hruns⟩ :=
    grpcConfig_init_cases env role p.togrpcConfig
  rcases hcase with ⟨hret, _⟩ | ⟨hpan, hrole, hnone, _⟩ | ⟨hpan, hdyn, hocc, hzero, _⟩
  · rw [hret] at hinit
    simp only [Outcome.bind] at hinit
    have h1 := initServerMaxSendSize_spec env { p with togrpcConfig := g }
    have h2 := initServerMaxRecvSize_spec env
      (({ p with togrpcConfig := g } : GrpcServerConfig).initServerMaxSendSize env)
    obtain ⟨a1, _, a3, a4, a5, a6, _, a8⟩ := h1
    obtain ⟨b1, b2, b3, b4, b5, b6, _, b8⟩ := h2
    simp only at a1 a3 a4 a5 a6 a8
    refine ⟨_, Or.inl ⟨hinit, ?_, ?_⟩, ?_, ?_, ?_, ?_, ?_⟩
    · rw [b2, a1, hdom]
    · rw [b1, a4, hdom]
    · rw [b3, a3, honce]
    · rw [b4, a4, hdom]
    · rw [b5, a5, hip]
    · rw [b6, a6]
      exact hport
    · rw [b8, a8, hruns]
  · rw [hpan] at hinit
    simp only [Outcome.bind] at hinit
    exact ⟨_, Or.inr (Or.inl ⟨hinit, hrole, hnone⟩), honce, hdom, hip, hport, hruns⟩
  · rw [hpan] at hinit
    simp only [Outcome.bind] at hinit
    exact ⟨_, Or.inr (Or.inr ⟨hinit, hdyn, hocc, hzero⟩), honce, hdom, hip, hport, hruns⟩

/-- What `GrpcClientConfig.init` can do, with the fields it leaves. -/
theorem GrpcClientConfig_init_cases (env : Env) (role : String) (p : GrpcClientConfig) :
    ∃ s,
      ((p.init env role = .returned s ∧
          s.ClientMaxSendSize =
            ResolveInt env (role ++ ".grpc.clientMaxSendSize") 104857600 ∧
          s.ClientMaxRecvSize =
            ResolveInt env (role ++ ".grpc.clientMaxRecvSize") 104857600) ∨
        (p.init env role = .panicked .initListener s ∧ role = env.DataNodeRole ∧
          env.Listen s.GetAddress = none) ∨
        (p.init env role = .panicked .GetAvailablePort s ∧ dynamicPortRole env role ∧
          (CheckPortAvailable env (env.ParseInt (role ++ ".port"))).1 = false ∧
          env.Listen ":0" = none)) ∧
      s.once = p.once ∧ s.Domain = role ∧ s.IP = env.LocalIP ∧
      (s.Port = env.ParseInt (role ++ ".port") ∨ (GetAvailablePort env).1 = some s.Port) ∧
      initRuns s.trace = initRuns p.trace + 1 := by
  have hinit : p.init env role =
      (p.togrpcConfig.init env role).bind (fun g => { p with togrpcConfig := g })
        (fun g => .returned
          (({ p with togrpcConfig := g } : GrpcClientConfig).initClientMaxSendSize env
            |>.initClientMaxRecvSize env)) := rfl
  obtain ⟨g, hcase, honce, hdom, hip, hport, hruns⟩ :=
    grpcConfig_init_cases env role p.togrpcConfig
  rcases hcase with ⟨hret, _⟩ | ⟨hpan, hrole, hnone, _⟩ | ⟨hpan, hdyn, hocc, hzero, _⟩
  · rw [hret] at hinit
    simp only [Outcome.bind] at hinit
    have h1 := initClientMaxSendSize_spec env { p with togrpcConfig := g }
    have h2 := initClientMaxRecvSize_spec env
      (({ p with togrpcConfig := g } : GrpcClientConfig).initClientMaxSendSize env)
    obtain ⟨a1, _, a3, a4, a5, a6, _, a8⟩ := h1
    obtain ⟨b1, b2, b3, b4, b5, b6, _, b8⟩ := h2
    simp only at a1 a3 a4 a5 a6 a8
    refine ⟨_, Or.inl ⟨hinit, ?_, ?_⟩, ?_, ?_, ?_, ?_, ?_⟩
    · rw [b2, a1, hdom]
    · rw [b1, a4, hdom]
    · rw [b3, a3, honce]
    · rw [b4, a4, hdom]
    · rw [b5, a5, hip]
    · rw [b6, a6]
      exact hport
    · rw [b8, a8, hruns]
  · rw [hpan] at hinit
    simp only [Outcome.bind] at hinit
    exact ⟨_, Or.inr (Or.inl ⟨hinit, hrole, hnone⟩), honce, hdom, hip, hport, hruns⟩
  · rw [hpan] at hinit
    simp only [Outcome.bind] at hinit
    exact ⟨_, Or.inr (Or.inr ⟨hinit, hdyn, hocc, hzero⟩), honce, hdom, hip, hport, hruns⟩

/-! ## Fatal exits -/

/-- C7, as stated, fails: for the role `proxy` (not the data-node role, so no
listener is bound eagerly) with the configured port occupied and no socket
bindable, `init` neither completes nor aborts in the eager listener bind: it
panics in `GetAvailablePort`. -/
theorem init_abort_counterexample :
    "proxy" ≠ envNoBind.DataNodeRole ∧
    (∃ s, GrpcServerConfig.zero.init envNoBind "proxy" = .panicked .GetAvailablePort s) ∧
    ¬ ((∃ s, GrpcServerConfig.zero.init envNoBind "proxy" = .returned s) ∨
        (∃ s, GrpcServerConfig.zero.init envNoBind "proxy" = .panicked .initListener s)) := by
  have h : GrpcServerConfig.zero.init envNoBind "proxy" =
      .panicked .GetAvailablePort
        (GrpcServerConfig.zero.init envNoBind "proxy").state := by decide
  refine ⟨by decide, ⟨_, h⟩, ?_⟩
  rintro (⟨s, hs⟩ | ⟨s, hs⟩) <;> rw [h] at hs <;> cases hs

/-- C7, amended: for every role, store and environment, `init` of a server or
client config either completes with `Domain`, `IP`, `Port` and both size limits
populated (the port is the configured one or the one of `GetAvailablePort`, each
size limit is `ResolveInt` of its key), or panics in the eager listener bind of
the data-node role, or panics in `GetAvailablePort` because a dynamic-port role
found its configured port unavailable and no ephemeral port could be bound. -/
theorem init_completes_or_aborts (env : Env) (role : String) (p : GrpcServerConfig)
    (c : GrpcClientConfig) :
    ((∃ s, p.init env role = .returned s ∧ s.Domain = role ∧ s.IP = env.LocalIP ∧
          (s.Port = env.ParseInt (role ++ ".port") ∨
            (GetAvailablePort env).1 = some s.Port) ∧
          s.ServerMaxSendSize =
            ResolveInt env (role ++ ".grpc.serverMaxSendSize") 2147483647 ∧
          s.ServerMaxRecvSize =
            ResolveInt env (role ++ ".grpc.serverMaxRecvSize") 2147483647) ∨
      (∃ s, p.init env role = .panicked .initListener s ∧ role = env.DataNodeRole ∧
          env.Listen s.GetAddress = none) ∨
      (∃ s, p.init env role = .panicked .GetAvailablePort s ∧ dynamicPortRole env role ∧
          (CheckPortAvailable env (env.ParseInt (role ++ ".port"))).1 = false ∧
          env.Listen ":0" = none)) ∧
    ((∃ s, c.init env role = .returned s ∧ s.Domain = role ∧ s.IP = env.LocalIP ∧
          (s.Port = env.ParseInt (role ++ ".port") ∨
            (GetAvailablePort env).1 = some s.Port) ∧
          s.ClientMaxSendSize =
            ResolveInt env (role ++ ".grpc.clientMaxSendSize") 104857600 ∧
          s.ClientMaxRecvSize =
            ResolveInt env (role ++ ".grpc.clientMaxRecvSize") 104857600) ∨
      (∃ s, c.init env role = .panicked .initListener s ∧ role = env.DataNodeRole ∧
          env.Listen s.GetAddress = none) ∨
      (∃ s, c.init env role = .panicked .GetAvailablePort s ∧ dynamicPortRole env role ∧
          (CheckPortAvailable env (env.ParseInt (role ++ ".port"))).1 = false ∧
          env.Listen ":0" = none)) := by
  constructor
  · obtain ⟨s, hcase, _, hdom, hip, hport, _⟩ := GrpcServerConfig_init_cases env role p
    rcases hcase with ⟨h, h1, h2⟩ | h | h
    · exact Or.inl ⟨s, h, hdom, hip, hport, h1, h2⟩
    · exact Or.inr (Or.inl ⟨s, h⟩)
    · exact Or.inr (Or.inr ⟨s, h⟩)
  · obtain ⟨s, hcase, _, hdom, hip, hport, _⟩ := GrpcClientConfig_init_cases env role c
    rcases hcase with ⟨h, h1, h2⟩ | h | h
    · exact Or.inl ⟨s, h, hdom, hip, hport, h1, h2⟩
    · exact Or.inr (Or.inl ⟨s, h⟩)
    · exact Or.inr (Or.inr ⟨s, h⟩)

/-! ## The eager listener -/

/-- C8, as stated, fails when the configured port is 0: for the data-node role
the probe of port 0 succeeds, so `Port` stays 0; the listener bound at
`127.0.0.1:0` sits on a port chosen by the system (45001), while `GetAddress`
still reports port 0. -/
theorem init_listener_port_zero_counterexample :
    ∃ s l, grpcConfig.zero.init envPortZero "data-node" = .returned s ∧
      s.Listener = some l ∧ s.Port = 0 ∧ l.Port = 45001 ∧ l.Port ≠ s.Port ∧
      s.GetAddress = "127.0.0.1:0" := by
  refine ⟨(grpcConfig.zero.init envPortZero "data-node").state, ⟨45001⟩, ?_⟩
  decide

/-- C8, amended: after `init` on an instance without a listener, the `Listener`
field is present only if the role is the data-node role and `init` returned,
and then it is the listener `net.Listen` gave for `GetAddress()`; its port equals
the `Port` field whenever that field is not 0, given that the TCP stack binds
the non-zero port it is asked for (`BindsRequestedPort`). -/
theorem init_listener_present (env : Env) (role : String) (p : grpcConfig) (l : Listener)
    (hfresh : p.Listener = none)
    (hOS : BindsRequestedPort env)
    (hl : (p.init env role).state.Listener = some l) :
    role = env.DataNodeRole ∧
    p.init env role = .returned (p.init env role).state ∧
    env.Listen (p.init env role).state.GetAddress = some l ∧
    ((p.init env role).state.Port ≠ 0 → l.Port = (p.init env role).state.Port) := by
  obtain ⟨s, hcase, _⟩ := grpcConfig_init_cases env role p
  rcases hcase with ⟨h, hlis⟩ | ⟨h, _, _, hlis⟩ | ⟨h, _, _, _, hlis⟩
  · rw [h] at hl ⊢
    simp only [Outcome.state] at hl ⊢
    rcases hlis with ⟨_, hlis⟩ | ⟨hrole, l2, hbind, hlis⟩
    · rw [hlis, hfresh] at hl
      cases hl
    · rw [hlis] at hl
      cases hl
      exact ⟨hrole, trivial, hbind, fun hne => hOS s.IP s.Port l hbind hne⟩
  · rw [h] at hl
    simp only [Outcome.state] at hl
    rw [hlis, hfresh] at hl
    cases hl
  · rw [h] at hl
    simp only [Outcome.state] at hl
    rw [hlis, hfresh] at hl
    cases hl

theorem envFree_bindsRequestedPort : BindsRequestedPort envFree := by
  intro host port l h _
  simp only [envFree] at h
  split at h
  · rename_i hc
    cases h
    rcases hc with hc | hc
    · exact (address_port_inj host "" port 21124 (hc.trans (by decide))).symm
    · exact (address_port_inj host "127.0.0.1" port 21124 (hc.trans (by decide))).symm
  · cases h

theorem init_listener_present_witness :
    "data-node" = envFree.DataNodeRole ∧
    grpcConfig.zero.init envFree "data-node" =
      .returned (grpcConfig.zero.init envFree "data-node").state ∧
    envFree.Listen (grpcConfig.zero.init envFree "data-node").state.GetAddress =
      some ⟨21124⟩ ∧
    ((grpcConfig.zero.init envFree "data-node").state.Port ≠ 0 →
      (⟨21124⟩ : Listener).Port = (grpcConfig.zero.init envFree "data-node").state.Port) :=
  init_listener_present envFree "data-node" grpcConfig.zero ⟨21124⟩ rfl
    envFree_bindsRequestedPort (by decide)

/-! ## Sign of the size limits -/

theorem ResolveInt_sign (env : Env) (key : String) (fallback : Int) (h : 0 ≤ fallback) :
    0 ≤ ResolveInt env key fallback ∨
      ∃ v, env.Load key = some v ∧ Atoi v = some (ResolveInt env key fallback) := by
  cases hL : env.Load key with
  | none =>
    simp only [ResolveInt, hL]
    exact Or.inl h
  | some v =>
    cases hA : Atoi v with
    | none =>
      simp only [ResolveInt, hL, hA]
      exact Or.inl h
    | some n =>
      simp only [ResolveInt, hL, hA]
      exact Or.inr ⟨v, rfl, hA⟩

/-- C9, as stated, fails: with `"-1"` stored under the send-size keys of role
`rootcoord`, `init` returns with `ServerMaxSendSize = -1` (server) and
`ClientMaxSendSize = -1` (client). -/
theorem init_size_negative_counterexample :
    (∃ s, GrpcServerConfig.zero.init envNegative "rootcoord" = .returned s ∧
      s.ServerMaxSendSize = -1 ∧
      ¬ (0 ≤ s.ServerMaxSendSize ∧ 0 ≤ s.ServerMaxRecvSize)) ∧
    (∃ s, GrpcClientConfig.zero.init envNegative "rootcoord" = .returned s ∧
      s.ClientMaxSendSize = -1 ∧
      ¬ (0 ≤ s.ClientMaxSendSize ∧ 0 ≤ s.ClientMaxRecvSize)) := by
  refine ⟨⟨(GrpcServerConfig.zero.init envNegative "rootcoord").state, ?_⟩,
    ⟨(GrpcClientConfig.zero.init envNegative "rootcoord").state, ?_⟩⟩ <;> decide

/-- C9, amended: after `init` of a server or client config returns, each size
limit is >= 0 unless the string stored under its own key parses
(`strconv.Atoi`) to the value of the field, which is the only way the field can
be negative. -/
theorem init_size_limits_sign (env : Env) (role : String) (p : GrpcServerConfig)
    (c : GrpcClientConfig) :
    (∀ s, p.init env role = .returned s →
      (0 ≤ s.ServerMaxSendSize ∨
        ∃ v, env.Load (role ++ ".grpc.serverMaxSendSize") = some v ∧
          Atoi v = some s.ServerMaxSendSize) ∧
      (0 ≤ s.ServerMaxRecvSize ∨
        ∃ v, env.Load (role ++ ".grpc.serverMaxRecvSize") = some v ∧
          Atoi v = some s.ServerMaxRecvSize)) ∧
    (∀ s, c.init env role = .returned s →
      (0 ≤ s.ClientMaxSendSize ∨
        ∃ v, env.Load (role ++ ".grpc.clientMaxSendSize") = some v ∧
          Atoi v = some s.ClientMaxSendSize) ∧
      (0 ≤ s.ClientMaxRecvSize ∨
        ∃ v, env.Load (role ++ ".grpc.clientMaxRecvSize") = some v ∧
          Atoi v = some s.ClientMaxRecvSize)) := by
  constructor
  · intro s hs
    obtain ⟨s2, hcase, _⟩ := GrpcServerConfig_init_cases env role p
    rcases hcase with ⟨h, h1, h2⟩ | ⟨h, _⟩ | ⟨h, _⟩ <;> rw [h] at hs <;> cases hs
    rw [h1, h2]
    exact ⟨ResolveInt_sign env _ _ (by decide), ResolveInt_sign env _ _ (by decide)⟩
  · intro s hs
    obtain ⟨s2, hcase, _⟩ := GrpcClientConfig_init_cases env role c
    rcases hcase with ⟨h, h1, h2⟩ | ⟨h, _⟩ | ⟨h, _⟩ <;> rw [h] at hs <;> cases hs
    rw [h1, h2]
    exact ⟨ResolveInt_sign env _ _ (by decide), ResolveInt_sign env _ _ (by decide)⟩

theorem init_size_limits_sign_witness :
    (0 ≤ (GrpcServerConfig.zero.init envParsed "rootcoord").state.ServerMaxSendSize ∨
      ∃ v, envParsed.Load ("rootcoord" ++ ".grpc.serverMaxSendSize") = some v ∧
        Atoi v =
          some (GrpcServerConfig.zero.init envParsed "rootcoord").state.ServerMaxSendSize) ∧
    (0 ≤ (GrpcClientConfig.zero.init envNegative "rootcoord").state.ClientMaxSendSize ∨
      ∃ v, envNegative.Load ("rootcoord" ++ ".grpc.clientMaxSendSize") = some v ∧
        Atoi v =
          some (GrpcClientConfig.zero.init envNegative "rootcoord").state.ClientMaxSendSize) :=
  ⟨((init_size_limits_sign envParsed "rootcoord" GrpcServerConfig.zero
      GrpcClientConfig.zero).1 _ (by decide)).1,
    ((init_size_limits_sign envNegative "rootcoord" GrpcServerConfig.zero
      GrpcClientConfig.zero).2 _ (by decide)).1⟩

/-! ## InitOnce -/

theorem GrpcServerConfig_InitOnce_done (env : Env) (d : String) (p : GrpcServerConfig)
    (hp : p.once = true) : p.InitOnce env d = .returned p := by
  simp [GrpcServerConfig.InitOnce, hp]

theorem GrpcServerConfig_InitOnceCalls_done (env : Env) (ds : List String) :
    ∀ p : GrpcServerConfig, p.once = true → p.InitOnceCalls env ds = p := by
  induction ds with
  | nil => intro p _; rfl
  | cons d t ih =>
    intro p hp
    have hstep : (p.InitOnce env d).state = p := by
      simp [GrpcServerConfig.InitOnce, hp, Outcome.state]
    simp only [GrpcServerConfig.InitOnceCalls, List.foldl_cons, hstep]
    exact ih p hp

theorem GrpcClientConfig_InitOnce_done (env : Env) (d : String) (p : GrpcClientConfig)
    (hp : p.once = true) : p.InitOnce env d = .returned p := by
  simp [GrpcClientConfig.InitOnce, hp]

theorem GrpcClientConfig_InitOnceCalls_done (env : Env) (ds : List String) :
    ∀ p : GrpcClientConfig, p.once = true → p.InitOnceCalls env ds = p := by
  induction ds with
  | nil => intro p _; rfl
  | cons d t ih =>
    intro p hp
    have hstep : (p.InitOnce env d).state = p := by
      simp [GrpcClientConfig.InitOnce, hp, Outcome.state]
    simp only [GrpcClientConfig.InitOnceCalls, List.foldl_cons, hstep]
    exact ih p hp

theorem GrpcServerConfig_InitOnce_first (env : Env) (d : String) (p : GrpcServerConfig)
    (hp : p.once = false) :
    (p.InitOnce env d).state = { (p.init env d).state with once := true } := by
  unfold GrpcServerConfig.InitOnce
  simp only [hp, Bool.false_eq_true, if_false]
  cases p.init env d <;> rfl

theorem GrpcClientConfig_InitOnce_first (env : Env) (d : String) (p : GrpcClientConfig)
    (hp : p.once = false) :
    (p.InitOnce env d).state = { (p.init env d).state with once := true } := by
  unfold GrpcClientConfig.InitOnce
  simp only [hp, Bool.false_eq_true, if_false]
  cases p.init env d <;> rfl

theorem GrpcServerConfig_init_state (env : Env) (d : String) (p : GrpcServerConfig) :
    (p.init env d).state.Domain = d ∧
      initRuns (p.init env d).state.trace = initRuns p.trace + 1 := by
  obtain ⟨s, hcase, _, hdom, _, _, hruns⟩ := GrpcServerConfig_init_cases env d p
  rcases hcase with ⟨h, _⟩ | ⟨h, _⟩ | ⟨h, _⟩ <;> rw [h] <;> exact ⟨hdom, hruns⟩

theorem GrpcClientConfig_init_state (env : Env) (d : String) (p : GrpcClientConfig) :
    (p.init env d).state.Domain = d ∧
      initRuns (p.init env d).state.trace = initRuns p.trace + 1 := by
  obtain ⟨s, hcase, _, hdom, _, _, hruns⟩ := GrpcClientConfig_init_cases env d p
  rcases hcase with ⟨h, _⟩ | ⟨h, _⟩ | ⟨h, _⟩ <;> rw [h] <;> exact ⟨hdom, hruns⟩

/-- C6: for every sequence of N >= 1 `InitOnce` calls (domains `d :: ds`) on one
server or client instance whose once-guard is unset, the init sequence runs
exactly once (the count of recorded runs grows by 1), with the first call's
domain `d`; the state after all the calls is the state after the first call,
and every further call returns that state unchanged. -/
theorem InitOnce_runs_once (env : Env) (d : String) (ds : List String)
    (p : GrpcServerConfig) (c : GrpcClientConfig) :
    (p.once = false →
      initRuns (p.InitOnceCalls env (d :: ds)).trace = initRuns p.trace + 1 ∧
      (p.InitOnce env d).state = { (p.init env d).state with once := true } ∧
      (p.InitOnceCalls env (d :: ds)).Domain = d ∧
      p.InitOnceCalls env (d :: ds) = (p.InitOnce env d).state ∧
      ∀ d2, (p.InitOnce env d).state.InitOnce env d2 = .returned (p.InitOnce env d).state) ∧
    (c.once = false →
      initRuns (c.InitOnceCalls env (d :: ds)).trace = initRuns c.trace + 1 ∧
      (c.InitOnce env d).state = { (c.init env d).state with once := true } ∧
      (c.InitOnceCalls env (d :: ds)).Domain = d ∧
      c.InitOnceCalls env (d :: ds) = (c.InitOnce env d).state ∧
      ∀ d2, (c.InitOnce env d).state.InitOnce env d2 = .returned (c.InitOnce env d).state) := by
  constructor
  · intro hp
    have hfirst := GrpcServerConfig_InitOnce_first env d p hp
    have hdone : (p.InitOnce env d).state.once = true := by rw [hfirst]
    have hall : p.InitOnceCalls env (d :: ds) = (p.InitOnce env d).state :=
      GrpcServerConfig_InitOnceCalls_done env ds _ hdone
    have hst := GrpcServerConfig_init_state env d p
    refine ⟨?_, hfirst, ?_, hall, ?_⟩
    · rw [hall, hfirst]
      exact hst.2
    · rw [hall, hfirst]
      exact hst.1
    · intro d2
      exact GrpcServerConfig_InitOnce_done env d2 _ hdone
  · intro hc
    have hfirst := GrpcClientConfig_InitOnce_first env d c hc
    have hdone : (c.InitOnce env d).state.once = true := by rw [hfirst]
    have hall : c.InitOnceCalls env (d :: ds) = (c.InitOnce env d).state :=
      GrpcClientConfig_InitOnceCalls_done env ds _ hdone
    have hst := GrpcClientConfig_init_state env d c
    refine ⟨?_, hfirst, ?_, hall, ?_⟩
    · rw [hall, hfirst]
      exact hst.2
    · rw [hall, hfirst]
      exact hst.1
    · intro d2
      exact GrpcClientConfig_InitOnce_done env d2 _ hdone

theorem InitOnce_runs_once_witness :
    initRuns (GrpcServerConfig.zero.InitOnceCalls envOccupied
      ("proxy" :: ["data-node", "rootcoord"])).trace = 1 ∧
    (GrpcServerConfig.zero.InitOnceCalls envOccupied
      ("proxy" :: ["data-node", "rootcoord"])).Domain = "proxy" ∧
    initRuns (GrpcClientConfig.zero.InitOnceCalls envOccupied
      ("proxy" :: ["data-node", "rootcoord"])).trace = 1 :=
  have h := InitOnce_runs_once envOccupied "proxy" ["data-node", "rootcoord"]
    GrpcServerConfig.zero GrpcClientConfig.zero
  ⟨(h.1 rfl).1, (h.1 rfl).2.2.1, (h.2 rfl).1⟩

end paramtable
